import Mathlib

/-!
Shallow embedding of the libp2p NAT manager (src/nat-manager.ts).

The manager's observable behaviour is modelled by pure state passing:
every externally visible action (creating the gateway client, querying
the gateway for the external IP, issuing a port-mapping request, adding
an observed address to the address manager, closing the client) is
recorded as an `Event` in a trace.  The external world (the gateway
client's responses, the private-ip classifier, the random source used by
highPort, and whether close succeeds) is an `Env` of response functions.
-/

namespace NatManagerModel

/-- Options of a bound multiaddr, as returned by addr.toOptions(). -/
structure AddrOptions where
  family : Nat
  host : String
  port : Nat
  transport : String
deriving Repr, DecidableEq

/-- A bound address reported by the transport manager, together with the
two predicates the NAT manager queries on it (addr.isThinWaistAddress()
and isLoopback(addr)); both are owned by out-of-scope components, so the
manager treats them as attributes of the address. -/
structure Addr where
  options : AddrOptions
  isThinWaistAddress : Bool
  isLoopback : Bool
deriving Repr, DecidableEq

/-- Argument of client.map in _start. -/
structure MapRequest where
  publicPort : Int
  localPort : Nat
  localAddress : Option String
  protocol : String
deriving Repr, DecidableEq

/-- Argument of fromNodeAddress: a node address record. -/
structure NodeAddress where
  family : Nat
  address : String
  port : Int
deriving Repr, DecidableEq

/-- Multiaddr built by fromNodeAddress(nodeAddress, transport), as passed
to addressManager.addObservedAddr. -/
structure ObservedAddr where
  nodeAddress : NodeAddress
  transport : String
deriving Repr, DecidableEq

/-- Externally visible actions of the NAT manager, in order. -/
inductive Event where
  | createClient
  | externalIpCall
  | mapCall (req : MapRequest)
  | addObservedAddr (oa : ObservedAddr)
  | closeClient
deriving Repr, DecidableEq

/-- Errors thrown inside the background mapping task _start. -/
inductive RunError where
  | privateIp (ip : String)
  | notAnIp (ip : String)
  | mapFailed (req : MapRequest)
deriving Repr, DecidableEq

/-- Responses of the external world: the gateway client's externalIp
answer (indexed by how many eligible addresses were processed before the
call), the private-ip classifier (the isPrivateIp library: some true =
private, some false = public, none = not an IP), the random source
consumed by highPort, whether a given map request succeeds, and whether
client.close succeeds. -/
structure Env where
  externalIpResp : Nat → String
  isPrivateIp : String → Option Bool
  random : Nat → ℚ
  mapOk : MapRequest → Bool
  closeOk : Bool

/-- ASCII uppercase of a character, as JavaScript toUpperCase acts on
the ASCII strings involved here. -/
def charUpper (c : Char) : Char :=
  if 'a' ≤ c ∧ c ≤ 'z' then Char.ofNat (c.toNat - 32) else c

/-- ASCII uppercase of a string (String.prototype.toUpperCase). -/
def stringUpper (s : String) : String := String.mk (s.data.map charUpper)

/-- highPort from nat-manager.ts: Math.floor(Math.random() * (max - min + 1) + min),
with Math.random() modelled as a rational r in the half-open interval from 0 to 1. -/
def highPort (r : ℚ) (min : Nat := 1024) (max : Nat := 65535) : Int :=
  Rat.floor (r * ((max : ℚ) - (min : ℚ) + 1) + (min : ℚ))

/-- Resolution of the public IP at eligible step n:
this.externalAddress ?? await client.externalIp(). -/
def publicIpOf (ext : Option String) (env : Env) (n : Nat) : String :=
  match ext with
  | some s => s
  | none => env.externalIpResp n

/-- Events emitted while acquiring the client and resolving the public
IP at one eligible address: _getClient creates the client only when it
is absent, and externalIp() is called only when no externalAddress
override is configured. -/
def acquireEvents (ext : Option String) (client : Bool) : List Event :=
  (if client then [] else [Event.createClient]) ++
    (if ext.isSome then [] else [Event.externalIpCall])

/-- The map request built for one eligible address at eligible step n. -/
def mapRequestOf (loc : Option String) (env : Env) (a : Addr) (n : Nat) : MapRequest :=
  { publicPort := highPort (env.random n)
    localPort := a.options.port
    localAddress := loc
    protocol := if stringUpper a.options.transport == "TCP" then "TCP" else "UDP" }

/-- The observed address registered after a successful mapping at
eligible step n. -/
def observedOf (ext : Option String) (env : Env) (a : Addr) (n : Nat) : ObservedAddr :=
  { nodeAddress :=
      { family := 4
        address := publicIpOf ext env n
        port := highPort (env.random n) }
    transport := a.options.transport }

/-- Outcome of processing one address of the loop body of _start. -/
inductive StepRes where
  | skipped
  | mapped (evs : List Event)
  | aborted (evs : List Event) (e : RunError)
deriving Repr, DecidableEq

/-- One iteration of the for-loop of _start on address a, with client
presence client and eligible-step counter n: the three skip checks
(thin-waist and tcp, loopback, family 4), then client acquisition,
public-IP resolution and validation, port choice, the map call, and the
observed-address registration. -/
def stepAddr (ext loc : Option String) (env : Env) (a : Addr) (client : Bool) (n : Nat) :
    StepRes :=
  if !a.isThinWaistAddress || a.options.transport != "tcp" then StepRes.skipped
  else if a.isLoopback then StepRes.skipped
  else if a.options.family != 4 then StepRes.skipped
  else
    match env.isPrivateIp (publicIpOf ext env n) with
    | some true =>
        StepRes.aborted (acquireEvents ext client)
          (RunError.privateIp (publicIpOf ext env n))
    | none =>
        StepRes.aborted (acquireEvents ext client)
          (RunError.notAnIp (publicIpOf ext env n))
    | some false =>
        if env.mapOk (mapRequestOf loc env a n) then
          StepRes.mapped (acquireEvents ext client ++
            [Event.mapCall (mapRequestOf loc env a n),
             Event.addObservedAddr (observedOf ext env a n)])
        else
          StepRes.aborted (acquireEvents ext client ++
            [Event.mapCall (mapRequestOf loc env a n)])
            (RunError.mapFailed (mapRequestOf loc env a n))

/-- Result of a whole run of _start: the emitted events, whether the
client reference is held afterwards, and the error the run ended with,
if any. -/
structure RunResult where
  events : List Event
  client : Bool
  error : Option RunError
deriving Repr, DecidableEq

/-- The for-loop of _start over the remaining addresses.  A thrown error
aborts the loop (the surrounding async function rejects); the client
reference set by _getClient survives the throw. -/
def natLoop (ext loc : Option String) (env : Env) :
    List Addr → Bool → Nat → RunResult
  | [], client, _ => ⟨[], client, none⟩
  | a :: rest, client, n =>
    match stepAddr ext loc env a client n with
    | StepRes.skipped => natLoop ext loc env rest client n
    | StepRes.mapped evs =>
        let r := natLoop ext loc env rest true (n + 1)
        ⟨evs ++ r.events, r.client, r.error⟩
    | StepRes.aborted evs e => ⟨evs, true, some e⟩

/-- Eligibility of one bound address for mapping: thin-waist, transport
exactly tcp, not loopback, family 4 (the conjunction of the three skip
checks of _start). -/
def eligible (a : Addr) : Bool :=
  a.isThinWaistAddress && (a.options.transport == "tcp") &&
    !a.isLoopback && (a.options.family == 4)

/-- Init options of the NatManager (NatManagerInit). -/
structure NatManagerInit where
  enabled : Bool
  externalAddress : Option String := none
  localAddress : Option String := none
  description : Option String := none
  ttl : Option Int := none
  keepAlive : Option Bool := none
  gateway : Option String := none
deriving Repr, DecidableEq

/-- Components handed to the constructor: the peer id (only used for the
default description) and the transport manager, reduced to the addresses
getAddrs() reports. -/
structure Components where
  peerId : String
  addrs : List Addr
deriving Repr, DecidableEq

/-- Error codes used by the manager (codes.ERR_INVALID_PARAMETERS from
errors.js, kept as an abstract code since only its identity matters). -/
inductive ErrorCode where
  | ERR_INVALID_PARAMETERS
deriving Repr, DecidableEq

/-- CodeError from the interfaces package: a message plus an error code. -/
structure CodeError where
  message : String
  code : ErrorCode
deriving Repr, DecidableEq

/-- DEFAULT_TTL from nat-manager.ts. -/
def DEFAULT_TTL : Int := 7200

/-- Modelled from the spec: the implementation name of the version
metadata (src/version.js is not among the sources); only used to build
the default description string, whose exact content no claim depends on. -/
def pkgName : String := "libp2p"

/-- Modelled from the spec: the implementation version of the version
metadata (src/version.js is not among the sources); only used to build
the default description string. -/
def pkgVersion : String := "0.0.0"

/-- State of a constructed NatManager instance. -/
structure NatManager where
  peerId : String
  addrs : List Addr
  enabled : Bool
  externalAddress : Option String
  localAddress : Option String
  description : String
  ttl : Int
  keepAlive : Bool
  gateway : Option String
  started : Bool
  client : Bool
deriving Repr, DecidableEq

/-- The constructor: stores the options, defaults description, ttl and
keepAlive, and throws a CodeError with code ERR_INVALID_PARAMETERS when
the effective ttl is below DEFAULT_TTL, in which case no instance is
created. -/
def mkNatManager (components : Components) (init : NatManagerInit) :
    Except CodeError NatManager :=
  let ttl := init.ttl.getD DEFAULT_TTL
  if ttl < DEFAULT_TTL then
    Except.error
      { message := "NatManager ttl should be at least " ++ toString DEFAULT_TTL ++ " seconds"
        code := ErrorCode.ERR_INVALID_PARAMETERS }
  else
    Except.ok
      { peerId := components.peerId
        addrs := components.addrs
        enabled := init.enabled
        externalAddress := init.externalAddress
        localAddress := init.localAddress
        description := init.description.getD
          (pkgName ++ "@" ++ pkgVersion ++ " " ++ components.peerId)
        ttl := ttl
        keepAlive := init.keepAlive.getD true
        gateway := init.gateway
        started := false
        client := false }

/-- Runtime environment detection (the isBrowser flag of the wherearewe
package) is out of scope; the model fixes the network-capable,
non-browser environment in which the manager does its work. -/
def isBrowser : Bool := false

/-- isStarted from nat-manager.ts. -/
def isStarted (nm : NatManager) : Bool := nm.started

/-- start() is a no-op placeholder. -/
def start (nm : NatManager) : NatManager := nm

/-- The background task _start: runs the mapping loop over the addresses
of the transport manager, starting from the instance's current client
state. -/
def natStart (nm : NatManager) (env : Env) : RunResult :=
  natLoop nm.externalAddress nm.localAddress env nm.addrs nm.client 0

/-- afterStart: returns unchanged with no task when in a browser, when
disabled, or when already started; otherwise flips started to true
synchronously and launches _start as a detached task whose outcome
(second component) is logged and never propagated. -/
def afterStart (env : Env) (nm : NatManager) : NatManager × Option RunResult :=
  if isBrowser || !nm.enabled || nm.started then (nm, none)
  else
    let nm' := { nm with started := true }
    (nm', some (natStart nm' env))

/-- stop: a no-op when in a browser or when no client reference is held;
otherwise closes the client, clearing the reference only when close
succeeds, and swallows a close failure (the function is total and
returns normally in both cases). -/
def stop (env : Env) (nm : NatManager) : NatManager × List Event :=
  if isBrowser || !nm.client then (nm, [])
  else if env.closeOk then ({ nm with client := false }, [Event.closeClient])
  else (nm, [Event.closeClient])

/-- Whether an event is an addObservedAddr registration. -/
def isObservedEvent : Event → Bool
  | Event.addObservedAddr _ => true
  | _ => false

/-- Number of createClient events in a trace. -/
def countCreate : List Event → Nat
  | [] => 0
  | Event.createClient :: rest => countCreate rest + 1
  | _ :: rest => countCreate rest

/-- Whether a trace contains a call to client.externalIp(). -/
def hasExternalIpCall : List Event → Bool
  | [] => false
  | Event.externalIpCall :: _ => true
  | _ :: rest => hasExternalIpCall rest

/-- Whether every map request of a trace carries protocol TCP. -/
def allMapTCP : List Event → Bool
  | [] => true
  | Event.mapCall req :: rest => (req.protocol == "TCP") && allMapTCP rest
  | _ :: rest => allMapTCP rest

/-- Concrete eligible candidate: a thin-waist, non-loopback IPv4 tcp
address. -/
def addrW : Addr :=
  { options := { family := 4, host := "192.168.1.10", port := 4001, transport := "tcp" }
    isThinWaistAddress := true
    isLoopback := false }

/-- Concrete ineligible candidate: an IPv6 address. -/
def addrV6 : Addr :=
  { options := { family := 6, host := "fe80::1", port := 4001, transport := "tcp" }
    isThinWaistAddress := true
    isLoopback := false }

/-- Concrete environment: the gateway reports the public IP 203.0.113.7,
the classifier knows 203.0.113.7 (public) and 10.0.0.5 (private), the
random source always yields 0, and every map and close call succeeds. -/
def envW : Env :=
  { externalIpResp := fun _ => "203.0.113.7"
    isPrivateIp := fun s =>
      if s == "203.0.113.7" then some false
      else if s == "10.0.0.5" then some true
      else none
    random := fun _ => 0
    mapOk := fun _ => true
    closeOk := true }

/-- Concrete components for construction. -/
def compW : Components := { peerId := "12D3KooWpeer", addrs := [addrW] }

/-- Concrete manager: enabled, not started, no client. -/
def nmW : NatManager :=
  { peerId := "12D3KooWpeer"
    addrs := [addrW]
    enabled := true
    externalAddress := none
    localAddress := none
    description := "desc"
    ttl := 7200
    keepAlive := true
    gateway := none
    started := false
    client := false }

/-- Concrete disabled manager. -/
def nmDisabled : NatManager := { nmW with enabled := false }

/-- Concrete manager currently holding a client reference. -/
def nmClientHeld : NatManager := { nmW with client := true }

/-- Concrete init whose ttl is below the minimum. -/
def initLow : NatManagerInit := { enabled := true, ttl := some 1200 }

/-- Concrete init relying on the ttl default. -/
def initDefault : NatManagerInit := { enabled := true }

/-- highPort is the integer floor of r * 64512 + 1024. -/
theorem highPort_eq_floor (r : ℚ) : highPort r = ⌊r * 64512 + 1024⌋ := by
  unfold highPort
  rw [Rat.floor_def, Rat.floor_def']
  norm_num

/-- highPort lands in the inclusive range from 1024 to 65535 whenever
its random input lies in the half-open unit interval. -/
theorem highPort_range (r : ℚ) (h0 : 0 ≤ r) (h1 : r < 1) :
    1024 ≤ highPort r ∧ highPort r ≤ 65535 := by
  rw [highPort_eq_floor]
  constructor
  · apply Int.le_floor.mpr
    push_cast
    nlinarith
  · have hlt : r * 64512 + 1024 < ((65536 : ℤ) : ℚ) := by push_cast; nlinarith
    have := Int.floor_lt.mpr hlt
    omega

theorem hasExternalIpCall_append (l1 l2 : List Event) :
    hasExternalIpCall (l1 ++ l2) = (hasExternalIpCall l1 || hasExternalIpCall l2) := by
  induction l1 with
  | nil => rfl
  | cons e rest ih => cases e <;> simp [hasExternalIpCall, ih]

theorem countCreate_append (l1 l2 : List Event) :
    countCreate (l1 ++ l2) = countCreate l1 + countCreate l2 := by
  induction l1 with
  | nil => simp [countCreate]
  | cons e rest ih => cases e <;> simp [countCreate, ih] <;> omega

theorem allMapTCP_append (l1 l2 : List Event) :
    allMapTCP (l1 ++ l2) = (allMapTCP l1 && allMapTCP l2) := by
  induction l1 with
  | nil => rfl
  | cons e rest ih => cases e <;> simp [allMapTCP, ih] <;> rw [Bool.and_assoc]

theorem hasExternalIpCall_acquire_some (s : String) (client : Bool) :
    hasExternalIpCall (acquireEvents (some s) client) = false := by
  cases client <;> simp [acquireEvents, hasExternalIpCall]

theorem countCreate_acquire (ext : Option String) (client : Bool) :
    countCreate (acquireEvents ext client) = if client then 0 else 1 := by
  cases client <;> cases ext <;> simp [acquireEvents, countCreate]

theorem allMapTCP_acquire (ext : Option String) (client : Bool) :
    allMapTCP (acquireEvents ext client) = true := by
  cases client <;> cases ext <;> simp [acquireEvents, allMapTCP]

theorem mapCall_not_mem_acquire (ext : Option String) (client : Bool) (req : MapRequest) :
    Event.mapCall req ∉ acquireEvents ext client := by
  cases client <;> cases ext <;> simp [acquireEvents]

theorem observed_not_mem_acquire (ext : Option String) (client : Bool) (oa : ObservedAddr) :
    Event.addObservedAddr oa ∉ acquireEvents ext client := by
  cases client <;> cases ext <;> simp [acquireEvents]

/-- Decomposition of eligibility into the four facts the loop checks. -/
theorem eligible_iff (a : Addr) :
    eligible a = true ↔
      a.isThinWaistAddress = true ∧ a.options.transport = "tcp" ∧
        a.isLoopback = false ∧ a.options.family = 4 := by
  simp [eligible, Bool.and_eq_true, and_assoc]

/-- An ineligible address is skipped by the loop body. -/
theorem stepAddr_ineligible (ext loc : Option String) (env : Env) (a : Addr)
    (client : Bool) (n : Nat) (h : eligible a = false) :
    stepAddr ext loc env a client n = StepRes.skipped := by
  unfold stepAddr
  by_cases h1 : a.isThinWaistAddress = true
  · by_cases h2 : a.options.transport = "tcp"
    · by_cases h3 : a.isLoopback = true
      · simp [h1, h2, h3]
      · by_cases h4 : a.options.family = 4
        · exfalso
          rw [Bool.not_eq_true] at h3
          have : eligible a = true := (eligible_iff a).mpr ⟨h1, h2, h3, h4⟩
          rw [this] at h
          exact absurd h (by simp)
        · simp [h1, h2, h3, h4]
    · simp [h1, h2]
  · rw [Bool.not_eq_true] at h1
    simp [h1]

/-- An eligible address whose resolved public IP is classified private
aborts the loop body after client acquisition and IP resolution. -/
theorem stepAddr_privateIp (ext loc : Option String) (env : Env) (a : Addr)
    (client : Bool) (n : Nat) (he : eligible a = true)
    (hp : env.isPrivateIp (publicIpOf ext env n) = some true) :
    stepAddr ext loc env a client n =
      StepRes.aborted (acquireEvents ext client)
        (RunError.privateIp (publicIpOf ext env n)) := by
  obtain ⟨h1, h2, h3, h4⟩ := (eligible_iff a).mp he
  simp [stepAddr, h1, h2, h3, h4, hp]

/-- An eligible address whose resolved public IP does not parse as an IP
aborts the loop body after client acquisition and IP resolution. -/
theorem stepAddr_notAnIp (ext loc : Option String) (env : Env) (a : Addr)
    (client : Bool) (n : Nat) (he : eligible a = true)
    (hp : env.isPrivateIp (publicIpOf ext env n) = none) :
    stepAddr ext loc env a client n =
      StepRes.aborted (acquireEvents ext client)
        (RunError.notAnIp (publicIpOf ext env n)) := by
  obtain ⟨h1, h2, h3, h4⟩ := (eligible_iff a).mp he
  simp [stepAddr, h1, h2, h3, h4, hp]

/-- An eligible address with a public, well-formed public IP and a
successful map call produces the map event followed by the
observed-address registration. -/
theorem stepAddr_success (ext loc : Option String) (env : Env) (a : Addr)
    (client : Bool) (n : Nat) (he : eligible a = true)
    (hp : env.isPrivateIp (publicIpOf ext env n) = some false)
    (hm : env.mapOk (mapRequestOf loc env a n) = true) :
    stepAddr ext loc env a client n =
      StepRes.mapped (acquireEvents ext client ++
        [Event.mapCall (mapRequestOf loc env a n),
         Event.addObservedAddr (observedOf ext env a n)]) := by
  obtain ⟨h1, h2, h3, h4⟩ := (eligible_iff a).mp he
  simp [stepAddr, h1, h2, h3, h4, hp, hm]

/-- An eligible address with a public, well-formed public IP and a
failing map call aborts the loop body right after the map event. -/
theorem stepAddr_mapFail (ext loc : Option String) (env : Env) (a : Addr)
    (client : Bool) (n : Nat) (he : eligible a = true)
    (hp : env.isPrivateIp (publicIpOf ext env n) = some false)
    (hm : env.mapOk (mapRequestOf loc env a n) = false) :
    stepAddr ext loc env a client n =
      StepRes.aborted (acquireEvents ext client ++
        [Event.mapCall (mapRequestOf loc env a n)])
        (RunError.mapFailed (mapRequestOf loc env a n)) := by
  obtain ⟨h1, h2, h3, h4⟩ := (eligible_iff a).mp he
  simp [stepAddr, h1, h2, h3, h4, hp, hm]

/-- Every loop-body outcome has one of five shapes; the mapped and
map-failed shapes additionally certify that the candidate's transport is
tcp (the eligibility filter admitted it). -/
theorem stepAddr_shape (ext loc : Option String) (env : Env) (a : Addr)
    (client : Bool) (n : Nat) :
    stepAddr ext loc env a client n = StepRes.skipped ∨
    (stepAddr ext loc env a client n =
        StepRes.mapped (acquireEvents ext client ++
          [Event.mapCall (mapRequestOf loc env a n),
           Event.addObservedAddr (observedOf ext env a n)]) ∧
      a.options.transport = "tcp") ∨
    stepAddr ext loc env a client n =
      StepRes.aborted (acquireEvents ext client)
        (RunError.privateIp (publicIpOf ext env n)) ∨
    stepAddr ext loc env a client n =
      StepRes.aborted (acquireEvents ext client)
        (RunError.notAnIp (publicIpOf ext env n)) ∨
    (stepAddr ext loc env a client n =
        StepRes.aborted (acquireEvents ext client ++
          [Event.mapCall (mapRequestOf loc env a n)])
          (RunError.mapFailed (mapRequestOf loc env a n)) ∧
      a.options.transport = "tcp") := by
  by_cases he : eligible a = true
  · have htcp := ((eligible_iff a).mp he).2.1
    cases hp : env.isPrivateIp (publicIpOf ext env n) with
    | none => exact Or.inr (Or.inr (Or.inr (Or.inl (stepAddr_notAnIp ext loc env a client n he hp))))
    | some b =>
      cases b with
      | true => exact Or.inr (Or.inr (Or.inl (stepAddr_privateIp ext loc env a client n he hp)))
      | false =>
        cases hm : env.mapOk (mapRequestOf loc env a n) with
        | true =>
          exact Or.inr (Or.inl ⟨stepAddr_success ext loc env a client n he hp hm, htcp⟩)
        | false =>
          exact Or.inr (Or.inr (Or.inr (Or.inr
            ⟨stepAddr_mapFail ext loc env a client n he hp hm, htcp⟩)))
  · rw [Bool.not_eq_true] at he
    exact Or.inl (stepAddr_ineligible ext loc env a client n he)

/-- The protocol of the map request for a tcp candidate is TCP. -/
theorem mapRequestOf_protocol (loc : Option String) (env : Env) (a : Addr) (n : Nat)
    (h : a.options.transport = "tcp") :
    (mapRequestOf loc env a n).protocol = "TCP" := by
  have hup : stringUpper "tcp" = "TCP" := by decide
  simp [mapRequestOf, h, hup]

/-- C1: a mapping attempt (gateway-client call and registry entry) is
made only for addresses that are thin-waist, transport exactly tcp,
non-loopback and IPv4; an address failing the eligibility filter is
skipped with no side effects: the run over the list with the ineligible
address in front equals the run over the rest, so no event (no client
call and no registry mutation) is attributable to it. -/
theorem natLoop_skips_ineligible (ext loc : Option String) (env : Env) (a : Addr)
    (rest : List Addr) (client : Bool) (n : Nat) (h : eligible a = false) :
    natLoop ext loc env (a :: rest) client n = natLoop ext loc env rest client n := by
  simp only [natLoop, stepAddr_ineligible ext loc env a client n h]

/-- Witness for C1 at the concrete IPv6 candidate. -/
theorem natLoop_skips_ineligible_witness :
    eligible addrV6 = false ∧
      natLoop none none envW (addrV6 :: [addrW]) false 0 =
        natLoop none none envW [addrW] false 0 :=
  ⟨by decide, natLoop_skips_ineligible none none envW addrV6 [addrW] false 0 (by decide)⟩

/-- C2: when the public IP resolved for an eligible address is
classified as private or does not parse as an IP, the run aborts with
the corresponding descriptive resolution error and its trace contains no
observed-address registration, neither for this address nor for any
later address of the same run. -/
theorem natLoop_bad_publicIp_aborts (ext loc : Option String) (env : Env) (a : Addr)
    (rest : List Addr) (client : Bool) (n : Nat)
    (he : eligible a = true)
    (hbad : env.isPrivateIp (publicIpOf ext env n) ≠ some false) :
    (env.isPrivateIp (publicIpOf ext env n) = some true →
      (natLoop ext loc env (a :: rest) client n).error =
        some (RunError.privateIp (publicIpOf ext env n))) ∧
    (env.isPrivateIp (publicIpOf ext env n) = none →
      (natLoop ext loc env (a :: rest) client n).error =
        some (RunError.notAnIp (publicIpOf ext env n))) ∧
    ∀ oa, Event.addObservedAddr oa ∉ (natLoop ext loc env (a :: rest) client n).events := by
  refine ⟨?_, ?_, ?_⟩
  · intro hp
    simp only [natLoop, stepAddr_privateIp ext loc env a client n he hp]
  · intro hp
    simp only [natLoop, stepAddr_notAnIp ext loc env a client n he hp]
  · intro oa
    cases hp : env.isPrivateIp (publicIpOf ext env n) with
    | none =>
      simp only [natLoop, stepAddr_notAnIp ext loc env a client n he hp]
      exact observed_not_mem_acquire ext client oa
    | some b =>
      cases b with
      | false => exact absurd hp hbad
      | true =>
        simp only [natLoop, stepAddr_privateIp ext loc env a client n he hp]
        exact observed_not_mem_acquire ext client oa

/-- Witness for C2: the private override 10.0.0.5 aborts the run and no
observed address is registered. -/
theorem natLoop_bad_publicIp_aborts_witness :
    (envW.isPrivateIp (publicIpOf (some "10.0.0.5") envW 0) = some true →
      (natLoop (some "10.0.0.5") none envW (addrW :: [addrW]) false 0).error =
        some (RunError.privateIp (publicIpOf (some "10.0.0.5") envW 0))) ∧
    (envW.isPrivateIp (publicIpOf (some "10.0.0.5") envW 0) = none →
      (natLoop (some "10.0.0.5") none envW (addrW :: [addrW]) false 0).error =
        some (RunError.notAnIp (publicIpOf (some "10.0.0.5") envW 0))) ∧
    ∀ oa, Event.addObservedAddr oa ∉
      (natLoop (some "10.0.0.5") none envW (addrW :: [addrW]) false 0).events :=
  natLoop_bad_publicIp_aborts (some "10.0.0.5") none envW addrW [addrW] false 0
    (by decide) (by decide)

/-- C3: for one eligible candidate whose map call succeeds, the run
registers exactly one observed address: family 4, the resolved public IP
as address, the same chosen public port as was sent in the mapping
request (an integer between 1024 and 65535), and the candidate's tcp
transport. -/
theorem natLoop_success_registers_once (ext loc : Option String) (env : Env) (a : Addr)
    (client : Bool) (n : Nat)
    (he : eligible a = true)
    (hip : env.isPrivateIp (publicIpOf ext env n) = some false)
    (hr0 : 0 ≤ env.random n) (hr1 : env.random n < 1)
    (hm : env.mapOk (mapRequestOf loc env a n) = true) :
    (natLoop ext loc env [a] client n).events.filter isObservedEvent =
      [Event.addObservedAddr (observedOf ext env a n)] ∧
    Event.mapCall (mapRequestOf loc env a n) ∈ (natLoop ext loc env [a] client n).events ∧
    (observedOf ext env a n).nodeAddress.family = 4 ∧
    (observedOf ext env a n).nodeAddress.address = publicIpOf ext env n ∧
    (observedOf ext env a n).nodeAddress.port = (mapRequestOf loc env a n).publicPort ∧
    1024 ≤ (mapRequestOf loc env a n).publicPort ∧
    (mapRequestOf loc env a n).publicPort ≤ 65535 ∧
    (observedOf ext env a n).transport = "tcp" := by
  have htcp := ((eligible_iff a).mp he).2.1
  have hrange := highPort_range (env.random n) hr0 hr1
  have h1 : (acquireEvents ext client).filter isObservedEvent = [] := by
    cases ext <;> cases client <;> simp [acquireEvents, isObservedEvent]
  refine ⟨?_, ?_, rfl, rfl, rfl, hrange.1, hrange.2, htcp⟩
  · simp [natLoop, stepAddr_success ext loc env a client n he hip hm,
      List.filter_append, h1, isObservedEvent]
  · simp [natLoop, stepAddr_success ext loc env a client n he hip hm]

/-- Witness for C3 at the concrete eligible address and environment. -/
theorem natLoop_success_registers_once_witness :
    (natLoop none none envW [addrW] false 0).events.filter isObservedEvent =
      [Event.addObservedAddr (observedOf none envW addrW 0)] ∧
    Event.mapCall (mapRequestOf none envW addrW 0) ∈
      (natLoop none none envW [addrW] false 0).events ∧
    (observedOf none envW addrW 0).nodeAddress.family = 4 ∧
    (observedOf none envW addrW 0).nodeAddress.address = publicIpOf none envW 0 ∧
    (observedOf none envW addrW 0).nodeAddress.port =
      (mapRequestOf none envW addrW 0).publicPort ∧
    1024 ≤ (mapRequestOf none envW addrW 0).publicPort ∧
    (mapRequestOf none envW addrW 0).publicPort ≤ 65535 ∧
    (observedOf none envW addrW 0).transport = "tcp" :=
  natLoop_success_registers_once none none envW addrW false 0
    (by decide) (by decide) (by norm_num [envW]) (by norm_num [envW]) rfl

/-- C4: construction with an effective ttl strictly below 7200 throws a
CodeError carrying ERR_INVALID_PARAMETERS and yields no instance, while
every effective ttl at least 7200 constructs successfully. -/
theorem mkNatManager_ttl_check (components : Components) (init : NatManagerInit) :
    (init.ttl.getD DEFAULT_TTL < DEFAULT_TTL →
      ∃ e, mkNatManager components init = Except.error e ∧
        e.code = ErrorCode.ERR_INVALID_PARAMETERS) ∧
    (DEFAULT_TTL ≤ init.ttl.getD DEFAULT_TTL →
      ∃ nm, mkNatManager components init = Except.ok nm) := by
  constructor
  · intro h
    refine ⟨{ message := "NatManager ttl should be at least " ++ toString DEFAULT_TTL ++ " seconds"
              code := ErrorCode.ERR_INVALID_PARAMETERS }, ?_, rfl⟩
    simp only [mkNatManager, if_pos h]
  · intro h
    cases hmk : mkNatManager components init with
    | ok nm => exact ⟨nm, rfl⟩
    | error e =>
      rw [mkNatManager] at hmk
      simp only [if_neg (not_lt.mpr h)] at hmk
      exact Except.noConfusion hmk

/-- Witness for C4: ttl 1200 is rejected with the invalid-parameters
code and the default ttl is accepted. -/
theorem mkNatManager_ttl_check_witness :
    (∃ e, mkNatManager compW initLow = Except.error e ∧
        e.code = ErrorCode.ERR_INVALID_PARAMETERS) ∧
    (∃ nm, mkNatManager compW initDefault = Except.ok nm) :=
  ⟨(mkNatManager_ttl_check compW initLow).1 (by decide),
   (mkNatManager_ttl_check compW initDefault).2 (by decide)⟩

/-- C5: afterStart leaves the manager untouched and launches nothing
when disabled or already started; otherwise it flips started to true
synchronously, launches the background run exactly once, and every
later call on the resulting state is a no-op. -/
theorem afterStart_spec (env : Env) (nm : NatManager) :
    ((nm.enabled = false ∨ nm.started = true) → afterStart env nm = (nm, none)) ∧
    (nm.enabled = true → nm.started = false →
      (afterStart env nm).1 = { nm with started := true } ∧
      (afterStart env nm).2 = some (natStart { nm with started := true } env) ∧
      ∀ env2, afterStart env2 (afterStart env nm).1 = ((afterStart env nm).1, none)) := by
  constructor
  · rintro (h | h) <;> simp [afterStart, isBrowser, h]
  · intro h1 h2
    simp [afterStart, isBrowser, h1, h2]

/-- Witness for C5: the disabled manager is untouched, and the enabled
unstarted manager gets started set. -/
theorem afterStart_spec_witness :
    afterStart envW nmDisabled = (nmDisabled, none) ∧
    (afterStart envW nmW).1 = { nmW with started := true } :=
  ⟨(afterStart_spec envW nmDisabled).1 (Or.inl rfl),
   ((afterStart_spec envW nmW).2 rfl rfl).1⟩

/-- C6: stop is a no-op when no client reference is held; with a client
held it emits exactly one close, returns normally whether or not the
close succeeds (the close error is swallowed, never thrown), clears the
reference on a successful close, after which any further stop is a
no-op. -/
theorem stop_spec (env : Env) (nm : NatManager) :
    (nm.client = false → stop env nm = (nm, [])) ∧
    (nm.client = true →
      (stop env nm).2 = [Event.closeClient] ∧
      (env.closeOk = true →
        (stop env nm).1 = { nm with client := false } ∧
        ∀ env2, stop env2 (stop env nm).1 = ((stop env nm).1, [])) ∧
      (env.closeOk = false → (stop env nm).1 = nm)) := by
  constructor
  · intro h
    simp [stop, isBrowser, h]
  · intro h
    cases hc : env.closeOk <;> simp [stop, isBrowser, h, hc]

/-- Witness for C6: stop on a client-free manager is inert, and stop on
a manager holding a client closes it. -/
theorem stop_spec_witness :
    stop envW nmW = (nmW, []) ∧
    (stop envW nmClientHeld).2 = [Event.closeClient] :=
  ⟨(stop_spec envW nmW).1 rfl, ((stop_spec envW nmClientHeld).2 rfl).1⟩

/-- C7: with an externalAddress override configured, no run ever calls
the gateway client's externalIp(). -/
theorem natLoop_override_no_externalIp (s : String) (loc : Option String) (env : Env)
    (addrs : List Addr) (client : Bool) (n : Nat) :
    hasExternalIpCall (natLoop (some s) loc env addrs client n).events = false := by
  induction addrs generalizing client n with
  | nil => rfl
  | cons a rest ih =>
    rcases stepAddr_shape (some s) loc env a client n with h | ⟨h, _⟩ | h | h | ⟨h, _⟩ <;>
      simp only [natLoop, h] <;>
      simp [hasExternalIpCall_append, hasExternalIpCall_acquire_some,
        hasExternalIpCall, ih]

/-- C8: the gateway client is created at most once per run: a run that
already holds the client reference never creates one, and a run that
starts without it creates at most one. -/
theorem natLoop_client_create_bound (ext loc : Option String) (env : Env)
    (addrs : List Addr) (client : Bool) (n : Nat) :
    countCreate (natLoop ext loc env addrs client n).events ≤
      if client then 0 else 1 := by
  induction addrs generalizing client n with
  | nil =>
    simp [natLoop, countCreate]
  | cons a rest ih =>
    rcases stepAddr_shape ext loc env a client n with h | ⟨h, _⟩ | h | h | ⟨h, _⟩
    · simp only [natLoop, h]
      exact ih client n
    · simp only [natLoop, h]
      have h2 := ih true (n + 1)
      simp only [countCreate_append, countCreate_acquire, countCreate]
      simp only [if_true] at h2
      cases client <;> simp <;> omega
    · simp only [natLoop, h, countCreate_acquire]
      exact le_rfl
    · simp only [natLoop, h, countCreate_acquire]
      exact le_rfl
    · simp only [natLoop, h, countCreate_append, countCreate_acquire, countCreate]
      simp

/-- C9: every map request a run sends to the gateway client carries as
publicPort the value of the external-port chooser highPort at one of the
random draws, and, whenever each random draw lies in the half-open unit
interval, that port is an integer between 1024 and 65535 inclusive. -/
theorem natLoop_map_port_range (ext loc : Option String) (env : Env)
    (addrs : List Addr) (client : Bool) (n : Nat)
    (hr : ∀ i, 0 ≤ env.random i ∧ env.random i < 1) :
    ∀ req, Event.mapCall req ∈ (natLoop ext loc env addrs client n).events →
      (∃ i, req.publicPort = highPort (env.random i)) ∧
      1024 ≤ req.publicPort ∧ req.publicPort ≤ 65535 := by
  induction addrs generalizing client n with
  | nil =>
    intro req hmem
    simp [natLoop] at hmem
  | cons a rest ih =>
    intro req hmem
    rcases stepAddr_shape ext loc env a client n with h | ⟨h, _⟩ | h | h | ⟨h, _⟩
    · simp only [natLoop, h] at hmem
      exact ih client n req hmem
    · simp only [natLoop, h, List.mem_append, List.mem_cons,
        List.not_mem_nil, or_false] at hmem
      rcases hmem with (hacq | heq | heq) | hrec
      · exact absurd hacq (mapCall_not_mem_acquire ext client req)
      · have hreq : req = mapRequestOf loc env a n := by
          cases heq
          rfl
        subst hreq
        have hrange := highPort_range (env.random n) (hr n).1 (hr n).2
        exact ⟨⟨n, rfl⟩, hrange.1, hrange.2⟩
      · exact absurd heq (by simp)
      · exact ih true (n + 1) req hrec
    · simp only [natLoop, h] at hmem
      exact absurd hmem (mapCall_not_mem_acquire ext client req)
    · simp only [natLoop, h] at hmem
      exact absurd hmem (mapCall_not_mem_acquire ext client req)
    · simp only [natLoop, h, List.mem_append, List.mem_cons,
        List.not_mem_nil, or_false] at hmem
      rcases hmem with hacq | heq
      · exact absurd hacq (mapCall_not_mem_acquire ext client req)
      · have hreq : req = mapRequestOf loc env a n := by
          cases heq
          rfl
        subst hreq
        have hrange := highPort_range (env.random n) (hr n).1 (hr n).2
        exact ⟨⟨n, rfl⟩, hrange.1, hrange.2⟩

/-- Witness for C9: the map request of the concrete successful run. -/
theorem natLoop_map_port_range_witness :
    (∃ i, (mapRequestOf none envW addrW 0).publicPort = highPort (envW.random i)) ∧
    1024 ≤ (mapRequestOf none envW addrW 0).publicPort ∧
    (mapRequestOf none envW addrW 0).publicPort ≤ 65535 :=
  natLoop_map_port_range none none envW [addrW] false 0
    (fun _ => ⟨by norm_num [envW], by norm_num [envW]⟩)
    (mapRequestOf none envW addrW 0)
    (by simp [natLoop, stepAddr_success none none envW addrW false 0
          (by decide) (by decide) rfl])

/-- C10: every map request a run actually issues carries protocol TCP;
the UDP branch of the protocol selection is unreachable because the
eligibility filter only admits tcp candidates. -/
theorem natLoop_map_protocol_TCP (ext loc : Option String) (env : Env)
    (addrs : List Addr) (client : Bool) (n : Nat) :
    allMapTCP (natLoop ext loc env addrs client n).events = true := by
  induction addrs generalizing client n with
  | nil => rfl
  | cons a rest ih =>
    rcases stepAddr_shape ext loc env a client n with h | ⟨h, htcp⟩ | h | h | ⟨h, htcp⟩
    · simp only [natLoop, h]
      exact ih client n
    · have hproto := mapRequestOf_protocol loc env a n htcp
      simp [natLoop, h, allMapTCP_append, allMapTCP_acquire, allMapTCP, hproto,
        ih true (n + 1)]
    · simp [natLoop, h, allMapTCP_acquire]
    · simp [natLoop, h, allMapTCP_acquire]
    · have hproto := mapRequestOf_protocol loc env a n htcp
      simp [natLoop, h, allMapTCP_append, allMapTCP_acquire, allMapTCP, hproto]

end NatManagerModel
